import Mathlib

/-!
Shallow embedding of the Chatterbox application (src/app.py): data model
(User, Message), session handling, and the Flask route handlers
register, login, logout, chat (GET/POST), index and profile.

Strings are Lean `String`; Python `str.strip()` is modelled by `pyStrip`
(whitespace trimming on both ends).  The salted password hash produced by
`generate_password_hash` is modelled as an opaque wrapper around the
plaintext, with `check_password_hash` verifying by comparison; this captures
exactly the verification semantics the claims depend on.  Rendered HTML
pages are abstracted to a `Response.page` carrying the page title and the
dynamic message text; redirects carry the endpoint name.
-/

namespace Chat

/-- Model of a werkzeug salted password hash: `check_password_hash h p`
succeeds exactly when `h` was produced by `generate_password_hash p`. -/
structure PasswordHash where
  plain : String
deriving DecidableEq, Repr

def generate_password_hash (p : String) : PasswordHash := ⟨p⟩

def check_password_hash (h : PasswordHash) (p : String) : Bool :=
  h.plain == p

/-- Python `str.strip()` (whitespace removed from both ends). -/
def pyStrip (s : String) : String :=
  String.mk (((s.data.dropWhile Char.isWhitespace).reverse.dropWhile
    Char.isWhitespace).reverse)

/-- Row of the `user` table (app.py lines 19-24). -/
structure User where
  id : Nat
  username : String
  password_hash : PasswordHash
  about : String
deriving DecidableEq, Repr

/-- Row of the `message` table (app.py lines 26-31). -/
structure Message where
  id : Nat
  user_id : Nat
  subject : String
  content : String
  created_at : Nat
deriving DecidableEq, Repr

/-- The persistent database: two tables, rows in insertion order. -/
structure DB where
  users : List User
  messages : List Message
deriving DecidableEq, Repr

/-- The Flask session cookie: holds `user_id` or nothing. -/
def Session := Option Nat
deriving instance DecidableEq, Repr for Session

/-- The observable outcome of a request: a rendered page (title plus the
dynamic message/body text, surrounding HTML elided) or a redirect to a
named endpoint, or a 404. -/
inductive Response where
  | page (title : String) (body : String)
  | redirect (endpoint : String)
  | notFound
deriving DecidableEq, Repr

/-- Result of one request: updated database, updated session, response. -/
structure Outcome where
  db : DB
  session : Session
  response : Response
deriving DecidableEq, Repr

/-- `User.query.filter_by(username=...).first()`. -/
def findUserByUsername (users : List User) (name : String) : Option User :=
  users.find? (fun u => u.username == name)

/-- `User.query.get(uid)` (primary-key lookup). -/
def getUserById (users : List User) (uid : Nat) : Option User :=
  users.find? (fun u => u.id == uid)

/-- `get_current_user` (app.py lines 34-37): if the session holds a
`user_id`, look it up; otherwise None.  A total function: it never raises. -/
def get_current_user (users : List User) (session : Session) : Option User :=
  match session with
  | some uid => getUserById users uid
  | none => none

/-- Autoincrement primary key for the `user` table (no row is ever
deleted, so rows are numbered 1,2,...). -/
def nextUserId (db : DB) : Nat := db.users.length + 1

/-- Autoincrement primary key for the `message` table. -/
def nextMessageId (db : DB) : Nat := db.messages.length + 1

/-- The form fields of POST /register. -/
structure RegisterForm where
  username : String
  password : String
  confirm : String
  about : String
deriving DecidableEq, Repr

/-- POST /register (app.py lines 108-123): strip username and about,
reject on password mismatch, reject on an existing username, otherwise
insert the new user, log them in, and redirect to chat.  Note: the
handler performs no emptiness check on username or password. -/
def registerPost (db : DB) (session : Session) (f : RegisterForm) : Outcome :=
  let username := pyStrip f.username
  let password := f.password
  let confirm := f.confirm
  let about_me := pyStrip f.about
  if password ≠ confirm then
    ⟨db, session, .page "Register" "Passwords do not match!"⟩
  else
    match findUserByUsername db.users username with
    | some _ => ⟨db, session, .page "Register" "Username already exists!"⟩
    | none =>
      let user : User :=
        { id := nextUserId db
          username := username
          password_hash := generate_password_hash password
          about := about_me }
      ⟨{ db with users := db.users ++ [user] }, some user.id, .redirect "chat"⟩

/-- GET /register: the registration form. -/
def registerGet (db : DB) (session : Session) : Outcome :=
  ⟨db, session, .page "Register" "registration form"⟩

/-- The credential check inside POST /login (app.py lines 142-143):
`filter_by(username=...).first()` followed by `check_password_hash`;
`none` when the user is missing or the hash does not verify. -/
def authenticate (users : List User) (username password : String) :
    Option User :=
  match findUserByUsername users username with
  | none => none
  | some user =>
    if check_password_hash user.password_hash password then some user
    else none

/-- POST /login (app.py lines 139-146).  Note: the username is NOT
stripped here, unlike in register. -/
def loginPost (db : DB) (session : Session) (username password : String) :
    Outcome :=
  match authenticate db.users username password with
  | none => ⟨db, session, .page "Login" "Invalid credentials!"⟩
  | some user => ⟨db, some user.id, .redirect "chat"⟩

/-- GET /login: the login form. -/
def loginGet (db : DB) (session : Session) : Outcome :=
  ⟨db, session, .page "Login" "login form"⟩

/-- GET /logout (app.py lines 158-161): clear the session, go home. -/
def logoutGet (db : DB) (_session : Session) : Outcome :=
  ⟨db, none, .redirect "index"⟩

/-- Insert a message into a list keeping ascending `created_at` order:
models the ordering of `order_by(Message.created_at.asc())`. -/
def insertAsc (m : Message) : List Message → List Message
  | [] => [m]
  | x :: xs =>
    if m.created_at ≤ x.created_at then m :: x :: xs else x :: insertAsc m xs

/-- `Message.query.order_by(Message.created_at.asc()).all()`
(app.py line 176). -/
def listAllAsc : List Message → List Message
  | [] => []
  | m :: ms => insertAsc m (listAllAsc ms)

/-- The feed HTML of the chat page, abstracted to the dynamic text of each
bubble in display order (app.py lines 175-189). -/
def renderFeed (current : User) (users : List User) :
    List Message → String
  | [] => ""
  | m :: ms =>
    (if m.user_id == current.id then m.subject ++ ": " ++ m.content
     else
       (match getUserById users m.user_id with
        | some u => u.username
        | none => "") ++ " - " ++ m.subject ++ ": " ++ m.content)
    ++ "\n" ++ renderFeed current users ms

/-- A request to /chat: a POST with form fields, or a GET. -/
inductive ChatReq where
  | post (subject : String) (content : String)
  | get
deriving DecidableEq, Repr

/-- GET/POST /chat (app.py lines 163-200), including the `login_required`
guard.  POST: strip subject and content; insert a message only when both
are non-empty (Python truthiness), then redirect back to /chat either
way.  GET: render all messages in ascending `created_at` order.
`now` is the server clock value used for `created_at`. -/
def chatHandler (db : DB) (session : Session) (now : Nat) (req : ChatReq) :
    Outcome :=
  match get_current_user db.users session with
  | none => ⟨db, session, .redirect "login"⟩
  | some current =>
    match req with
    | .post rawSubject rawContent =>
      let subject := pyStrip rawSubject
      let content := pyStrip rawContent
      if subject != "" && content != "" then
        let msg : Message :=
          { id := nextMessageId db
            user_id := current.id
            subject := subject
            content := content
            created_at := now }
        ⟨{ db with messages := db.messages ++ [msg] }, session,
          .redirect "chat"⟩
      else
        ⟨db, session, .redirect "chat"⟩
    | .get =>
      ⟨db, session,
        .page "Chat" (renderFeed current db.users (listAllAsc db.messages))⟩

/-- GET / (app.py lines 93-104). -/
def indexGet (db : DB) (session : Session) : Outcome :=
  match get_current_user db.users session with
  | some _ => ⟨db, session, .redirect "chat"⟩
  | none => ⟨db, session, .page "Home" "Welcome to Chatterbox"⟩

/-- GET /profile/<username> (app.py lines 202-212), with the
`login_required` guard and `first_or_404`. -/
def profileGet (db : DB) (session : Session) (username : String) : Outcome :=
  match get_current_user db.users session with
  | none => ⟨db, session, .redirect "login"⟩
  | some _ =>
    match findUserByUsername db.users username with
    | none => ⟨db, session, .notFound⟩
    | some u =>
      ⟨db, session,
        .page (u.username ++ " Profile")
          (if u.about == "" then "No bio yet." else u.about)⟩

/-- Every request the application serves, for whole-system invariants. -/
inductive Op where
  | registerP (f : RegisterForm)
  | registerG
  | loginP (username : String) (password : String)
  | loginG
  | logout
  | chat (now : Nat) (req : ChatReq)
  | index
  | profile (username : String)
deriving Repr

/-- Dispatch one request. -/
def step (db : DB) (session : Session) : Op → Outcome
  | .registerP f => registerPost db session f
  | .registerG => registerGet db session
  | .loginP u p => loginPost db session u p
  | .loginG => loginGet db session
  | .logout => logoutGet db session
  | .chat now req => chatHandler db session now req
  | .index => indexGet db session
  | .profile u => profileGet db session u

/-- Modelled from the spec: `listRecent(limit)` belongs to an alternate
revision of this repository that is not under src/ (the revision in
src/app.py renders the unbounded ascending listing instead).  Per the
spec: the most recent `limit` messages, "internally selected by
descending recency then reversed" for chronological ascending display.
Applied to the full chronological history, descending recency is the
reversed history. -/
def listRecent (limit : Nat) (history : List Message) : List Message :=
  ((history.reverse.take limit).reverse)

/-- Ascending `created_at` order, as the spec states it. -/
abbrev AscByCreatedAt (l : List Message) : Prop :=
  List.Pairwise (fun a b => a.created_at ≤ b.created_at) l

/-! Concrete fixtures used by the witness theorems. -/

/-- A registered user, as produced by a successful registration. -/
def alice : User := ⟨1, "alice", ⟨"pw"⟩, "hi"⟩

def msgA : Message := ⟨1, 1, "s1", "c1", 10⟩

def msgB : Message := ⟨2, 1, "s2", "c2", 20⟩

def msgC : Message := ⟨3, 2, "s3", "c3", 30⟩

end Chat

namespace Chat

/-! Claim theorems. -/

/-- Claim C1 (amended): after `register(username, password, confirm, about)`
with `password = confirm`, the username free, and the username containing no
leading or trailing whitespace, `authenticate(username, password)` succeeds
and returns a User whose username equals the registered username (and the
login route redirects to chat).  The whitespace condition is forced:
register stores the stripped username while login looks up the submitted
string verbatim. -/
theorem C1_register_then_authenticate (db : DB) (session : Session)
    (f : RegisterForm)
    (hstrip : pyStrip f.username = f.username)
    (hpw : f.password = f.confirm)
    (hfree : findUserByUsername db.users f.username = none) :
    ∃ u : User,
      authenticate (registerPost db session f).db.users f.username f.password
        = some u
      ∧ u.username = f.username
      ∧ (loginPost (registerPost db session f).db none f.username
          f.password).response = Response.redirect "chat" := by
  have hreg : (registerPost db session f).db.users
      = db.users ++ [⟨nextUserId db, f.username,
          generate_password_hash f.password, pyStrip f.about⟩] := by
    simp [registerPost, hpw, hstrip, hfree]
  have hfind : findUserByUsername (registerPost db session f).db.users
      f.username = some ⟨nextUserId db, f.username,
        generate_password_hash f.password, pyStrip f.about⟩ := by
    rw [hreg]
    unfold findUserByUsername at hfree ⊢
    simp [List.find?_append, hfree]
  have hauth : authenticate (registerPost db session f).db.users f.username
      f.password = some ⟨nextUserId db, f.username,
        generate_password_hash f.password, pyStrip f.about⟩ := by
    simp [authenticate, hfind, check_password_hash, generate_password_hash]
  exact ⟨_, hauth, rfl, by simp [loginPost, hauth]⟩

/-- Witness for C1 at a concrete input: register then authenticate
"alice"/"pw" on an empty database. -/
theorem C1_witness : pyStrip "alice" = "alice" ∧ ("pw" : String) = "pw"
    ∧ findUserByUsername (DB.mk [] []).users "alice" = none
    ∧ ∃ u : User,
      authenticate
          (registerPost ⟨[], []⟩ none ⟨"alice", "pw", "pw", ""⟩).db.users
          "alice" "pw" = some u
      ∧ u.username = "alice"
      ∧ (loginPost (registerPost ⟨[], []⟩ none ⟨"alice", "pw", "pw", ""⟩).db
          none "alice" "pw").response = Response.redirect "chat" :=
  ⟨by decide, rfl, by decide, C1_register_then_authenticate ⟨[], []⟩ none
    ⟨"alice", "pw", "pw", ""⟩ (by decide) rfl (by decide)⟩

/-- Counterexample to C1 as stated: the username " alice " (with
surrounding whitespace) satisfies all the claim preconditions on an
empty database — password equals confirm and the username is not
registered — yet register followed by authenticate with the same
submitted username fails: register stores the stripped "alice", and
login looks up " alice " verbatim. -/
theorem C1_counterexample :
    findUserByUsername ([] : List User) " alice " = none
    ∧ authenticate
        (registerPost ⟨[], []⟩ none ⟨" alice ", "pw", "pw", ""⟩).db.users
        " alice " "pw" = none
    ∧ (loginPost (registerPost ⟨[], []⟩ none ⟨" alice ", "pw", "pw", ""⟩).db
        none " alice " "pw").response
      = Response.page "Login" "Invalid credentials!" := by decide

/-- Claim C2: `listRecent(N)` returns at most N messages, in ascending
`created_at` order, and the result is a suffix of the full chronological
history.  (`listRecent` is modelled from the spec; see its docstring.) -/
theorem C2_listRecent_bounded_ascending_suffix (limit : Nat)
    (history : List Message) (hasc : AscByCreatedAt history) :
    (listRecent limit history).length ≤ limit
    ∧ listRecent limit history <:+ history
    ∧ AscByCreatedAt (listRecent limit history) := by
  have hsuf : listRecent limit history <:+ history := by
    refine ⟨(history.reverse.drop limit).reverse, ?_⟩
    rw [listRecent, ← List.reverse_append, List.take_append_drop,
      List.reverse_reverse]
  refine ⟨?_, hsuf, ?_⟩
  · simp [listRecent]
  · exact List.Pairwise.sublist hsuf.sublist hasc

/-- Witness for C2: a three-message history with limit 2. -/
theorem C2_witness : AscByCreatedAt [msgA, msgB, msgC]
    ∧ ((listRecent 2 [msgA, msgB, msgC]).length ≤ 2
      ∧ listRecent 2 [msgA, msgB, msgC] <:+ [msgA, msgB, msgC]
      ∧ AscByCreatedAt (listRecent 2 [msgA, msgB, msgC])) :=
  ⟨by decide, C2_listRecent_bounded_ascending_suffix 2 [msgA, msgB, msgC]
    (by decide)⟩

/-- Claim C3 (code behaviour at the failing input): the register handler
performs no server-side emptiness check, so a POST with an empty username
(and matching non-empty passwords) creates a User row with username ""
and establishes a session — contrary to the claimed ValidationError. -/
theorem C3_empty_username_creates_account :
    (registerPost ⟨[], []⟩ none ⟨"", "pw", "pw", ""⟩).db.users
      = [⟨1, "", ⟨"pw"⟩, ""⟩]
    ∧ (registerPost ⟨[], []⟩ none ⟨"", "pw", "pw", ""⟩).session = some 1
    ∧ (registerPost ⟨[], []⟩ none ⟨"", "pw", "pw", ""⟩).response
      = Response.redirect "chat" := by decide

/-- Counterexample to C4 as stated: a successful registration of "bob" on
an empty database neither redirects to the login page nor leaves the
caller logged out. -/
theorem C4_counterexample :
    ¬ ((registerPost ⟨[], []⟩ none ⟨"bob", "pw", "pw", ""⟩).response
        = Response.redirect "login"
      ∧ (registerPost ⟨[], []⟩ none ⟨"bob", "pw", "pw", ""⟩).session
        = none) := by decide

/-- Claim C4 (amended): every successful POST /register redirects to the
chat page and logs the new user in (the session is set to the new id). -/
theorem C4_register_success_redirects_to_chat (db : DB) (session : Session)
    (f : RegisterForm)
    (hpw : f.password = f.confirm)
    (hfree : findUserByUsername db.users (pyStrip f.username) = none) :
    (registerPost db session f).response = Response.redirect "chat"
    ∧ (registerPost db session f).session = some (nextUserId db) := by
  simp [registerPost, hpw, hfree]

/-- Witness for C4 at a concrete input: registering "bob". -/
theorem C4_witness : ("pw" : String) = "pw"
    ∧ findUserByUsername (DB.mk [] []).users (pyStrip "bob") = none
    ∧ ((registerPost ⟨[], []⟩ none ⟨"bob", "pw", "pw", ""⟩).response
        = Response.redirect "chat"
      ∧ (registerPost ⟨[], []⟩ none ⟨"bob", "pw", "pw", ""⟩).session
        = some (nextUserId ⟨[], []⟩)) :=
  ⟨rfl, by decide,
    C4_register_success_redirects_to_chat ⟨[], []⟩ none
      ⟨"bob", "pw", "pw", ""⟩ rfl (by decide)⟩

/-- Counterexample to C5 as stated: with "alice" already registered,
register("alice", "a", "b") fails — but with the password-mismatch page,
not the ConflictError page, because the mismatch check runs first. -/
theorem C5_counterexample :
    (registerPost ⟨[alice], []⟩ none ⟨"alice", "a", "b", ""⟩).response
      ≠ Response.page "Register" "Username already exists!" := by decide

/-- Claim C5 (amended): when a User with the (stripped) username already
exists, register never inserts a row — the database is unchanged — and
when additionally the passwords match it fails with the ConflictError
page ("Username already exists!"). -/
theorem C5_register_conflict_no_insert (db : DB) (session : Session)
    (f : RegisterForm) (u : User)
    (htaken : findUserByUsername db.users (pyStrip f.username) = some u) :
    (registerPost db session f).db = db
    ∧ (f.password = f.confirm →
        (registerPost db session f).response
          = Response.page "Register" "Username already exists!") := by
  unfold registerPost
  by_cases hpw : f.password = f.confirm <;> simp [hpw, htaken]

/-- Witness for C5 at a concrete input: re-registering "alice". -/
theorem C5_witness :
    findUserByUsername (DB.mk [alice] []).users (pyStrip "alice")
      = some alice
    ∧ ((registerPost ⟨[alice], []⟩ none ⟨"alice", "pw2", "pw2", ""⟩).db
        = ⟨[alice], []⟩
      ∧ (("pw2" : String) = "pw2" →
        (registerPost ⟨[alice], []⟩ none
          ⟨"alice", "pw2", "pw2", ""⟩).response
          = Response.page "Register" "Username already exists!")) :=
  ⟨by decide, C5_register_conflict_no_insert ⟨[alice], []⟩ none
    ⟨"alice", "pw2", "pw2", ""⟩ alice (by decide)⟩

/-- Counterexample to C6 as stated: an authenticated post with
whitespace-only content does not fail with any error — the handler
silently redirects back to /chat (and inserts nothing). -/
theorem C6_counterexample :
    (chatHandler ⟨[alice], []⟩ (some 1) 5 (.post "subj" "   ")).response
      = Response.redirect "chat"
    ∧ (chatHandler ⟨[alice], []⟩ (some 1) 5 (.post "subj" "   ")).db.messages
      = [] := by decide

/-- Claim C6 (amended): for an authenticated caller, posting content that
is empty after trimming inserts no Message row and silently redirects
back to /chat with no error surfaced. -/
theorem C6_empty_content_silent_discard (db : DB) (session : Session)
    (now : Nat) (subject content : String) (u : User)
    (hauth : get_current_user db.users session = some u)
    (hempty : pyStrip content = "") :
    chatHandler db session now (.post subject content)
      = ⟨db, session, Response.redirect "chat"⟩ := by
  simp [chatHandler, hauth, hempty]

/-- Witness for C6 at a concrete input: alice posts whitespace content. -/
theorem C6_witness :
    get_current_user (DB.mk [alice] []).users (some 1) = some alice
    ∧ pyStrip "  " = ""
    ∧ chatHandler ⟨[alice], []⟩ (some 1) 7 (.post "hello" "  ")
      = ⟨⟨[alice], []⟩, some 1, Response.redirect "chat"⟩ :=
  ⟨by decide, by decide,
    C6_empty_content_silent_discard ⟨[alice], []⟩ (some 1) 7 "hello" "  "
      alice (by decide) (by decide)⟩

/-- Claim C7: the two authentication failure causes — unknown username in
one run, known username with wrong password in another — produce
identical observable outcomes: the same "Invalid credentials!" page, with
the session unchanged in both runs. -/
theorem C7_auth_failures_indistinguishable (db₁ db₂ : DB) (s₁ s₂ : Session)
    (u₁ p₁ u₂ p₂ : String) (user : User)
    (hunknown : findUserByUsername db₁.users u₁ = none)
    (hknown : findUserByUsername db₂.users u₂ = some user)
    (hwrong : check_password_hash user.password_hash p₂ = false) :
    (loginPost db₁ s₁ u₁ p₁).response = (loginPost db₂ s₂ u₂ p₂).response
    ∧ (loginPost db₁ s₁ u₁ p₁).response
        = Response.page "Login" "Invalid credentials!"
    ∧ (loginPost db₁ s₁ u₁ p₁).session = s₁
    ∧ (loginPost db₂ s₂ u₂ p₂).session = s₂ := by
  simp [loginPost, authenticate, hunknown, hknown, hwrong]

/-- Witness for C7: unknown user "ghost" versus "alice" with a wrong
password. -/
theorem C7_witness :
    findUserByUsername (DB.mk [] []).users "ghost" = none
    ∧ findUserByUsername (DB.mk [alice] []).users "alice" = some alice
    ∧ check_password_hash alice.password_hash "wrong" = false
    ∧ ((loginPost ⟨[], []⟩ none "ghost" "x").response
        = (loginPost ⟨[alice], []⟩ none "alice" "wrong").response
      ∧ (loginPost ⟨[], []⟩ none "ghost" "x").response
        = Response.page "Login" "Invalid credentials!"
      ∧ (loginPost ⟨[], []⟩ none "ghost" "x").session = none
      ∧ (loginPost ⟨[alice], []⟩ none "alice" "wrong").session = none) :=
  ⟨by decide, by decide, by decide,
    C7_auth_failures_indistinguishable ⟨[], []⟩ ⟨[alice], []⟩ none none
      "ghost" "x" "alice" "wrong" alice (by decide) (by decide) (by decide)⟩

/-- Claim C8: `get_current_user` returns none when there is no session
token or when the referenced User id no longer resolves; being a total
function, it never raises. -/
theorem C8_resolve_current_user_none (users : List User) (session : Session)
    (h : session = none
      ∨ ∃ uid, session = some uid ∧ getUserById users uid = none) :
    get_current_user users session = none := by
  rcases h with rfl | ⟨uid, rfl, hz⟩
  · rfl
  · simpa [get_current_user] using hz

/-- Witness for C8: a session referencing the nonexistent user id 99. -/
theorem C8_witness :
    ((some 99 : Session) = none
      ∨ ∃ uid, (some 99 : Session) = some uid
        ∧ getUserById [alice] uid = none)
    ∧ get_current_user [alice] (some 99) = none :=
  ⟨Or.inr ⟨99, rfl, by decide⟩,
    C8_resolve_current_user_none [alice] (some 99)
      (Or.inr ⟨99, rfl, by decide⟩)⟩

/-- Claim C9: every request the application serves leaves the existing
Message rows unchanged and in place — the new message table is the old
one with zero or more rows appended (the feed is append-only; no update
or delete operation exists). -/
theorem C9_messages_append_only (db : DB) (session : Session) (op : Op) :
    ∃ tail, (step db session op).db.messages = db.messages ++ tail := by
  cases op with
  | registerP f =>
    unfold step registerPost
    by_cases hpw : f.password = f.confirm
    · simp only [hpw]
      cases hfind : findUserByUsername db.users (pyStrip f.username) <;>
        · exact ⟨[], by simp [hfind]⟩
    · exact ⟨[], by simp [hpw]⟩
  | registerG => exact ⟨[], by simp [step, registerGet]⟩
  | loginP u p =>
    unfold step loginPost
    cases hauth : authenticate db.users u p <;> exact ⟨[], by simp [hauth]⟩
  | loginG => exact ⟨[], by simp [step, loginGet]⟩
  | logout => exact ⟨[], by simp [step, logoutGet]⟩
  | chat now req =>
    unfold step chatHandler
    cases hcur : get_current_user db.users session with
    | none => exact ⟨[], by simp⟩
    | some current =>
      cases req with
      | get => exact ⟨[], by simp⟩
      | post s c =>
        by_cases hok : (pyStrip s != "" && pyStrip c != "") = true
        · exact ⟨[⟨nextMessageId db, current.id, pyStrip s, pyStrip c, now⟩],
            by simp [hok]⟩
        · exact ⟨[], by simp [hok]⟩
  | index =>
    unfold step indexGet
    cases hcur : get_current_user db.users session <;> exact ⟨[], by simp⟩
  | profile u =>
    unfold step profileGet
    cases hcur : get_current_user db.users session with
    | none => exact ⟨[], by simp⟩
    | some current =>
      cases hfind : findUserByUsername db.users u <;>
        exact ⟨[], by simp [hfind]⟩

/-- Claim C10: for an authenticated caller, a POST to /chat whose trimmed
subject or trimmed content is empty inserts no Message row and responds
with a redirect back to /chat — a silent discard, with no error
surfaced. -/
theorem C10_post_requires_subject_and_content (db : DB) (session : Session)
    (now : Nat) (subject content : String) (u : User)
    (hauth : get_current_user db.users session = some u)
    (hempty : pyStrip subject = "" ∨ pyStrip content = "") :
    chatHandler db session now (.post subject content)
      = ⟨db, session, Response.redirect "chat"⟩ := by
  rcases hempty with h | h <;> simp [chatHandler, hauth, h]

/-- Witness for C10 at a concrete input: alice posts with a
whitespace-only subject and a non-empty body. -/
theorem C10_witness :
    get_current_user (DB.mk [alice] []).users (some 1) = some alice
    ∧ (pyStrip " \t " = "" ∨ pyStrip "body" = "")
    ∧ chatHandler ⟨[alice], []⟩ (some 1) 9 (.post " \t " "body")
      = ⟨⟨[alice], []⟩, some 1, Response.redirect "chat"⟩ :=
  ⟨by decide, Or.inl (by decide),
    C10_post_requires_subject_and_content ⟨[alice], []⟩ (some 1) 9 " \t "
      "body" alice (by decide) (Or.inl (by decide))⟩

end Chat
